import Mathlib

/-!
Shallow embedding of the sparkplug-rs core: topic grammar (src/topic.rs),
payload envelope accessors (src/payload.rs), the torture-test node tracker
(examples/torture_test_subscriber.rs), and the publisher lifecycle counters.
Strings are modelled as lists of characters; Rust's `str::split('/')` is
modelled by `splitChar`, and `format!` concatenation by list append.
-/

namespace SparkplugRs

deriving instance DecidableEq for Except

/-- Rust strings, modelled as lists of characters. -/
abbrev Str := List Char

/-- Model of Rust `str::split(sep)` for a one-character pattern: splits at every
occurrence of `sep`; the empty string yields `[[]]`. -/
def splitChar (sep : Char) : List Char → List (List Char)
  | [] => [[]]
  | c :: rest =>
    match splitChar sep rest with
    | [] => [[]]
    | p :: ps => if c = sep then [] :: p :: ps else (c :: p) :: ps

/-- Joining with a one-character separator, the inverse of `splitChar`. -/
def joinChar (sep : Char) : List (List Char) → List Char
  | [] => []
  | [p] => p
  | p :: q :: ps => p ++ sep :: joinChar sep (q :: ps)

/-- Error type (src/error.rs), restricted to the variants the embedded
operations can produce. -/
inductive Error
  | InvalidTopic (reason : Str)
  | ParseFailed
  | InvalidMetricIndex (index count : Nat)
  deriving DecidableEq, Repr

/-- Sparkplug message types (src/topic.rs `MessageType`). -/
inductive MessageType
  | NBirth
  | NDeath
  | NData
  | NCmd
  | DBirth
  | DDeath
  | DData
  | DCmd
  | State
  deriving DecidableEq, Repr

namespace MessageType

/-- The string representation used in MQTT topics (`MessageType::as_str`). -/
def as_str : MessageType → Str
  | NBirth => "NBIRTH".toList
  | NDeath => "NDEATH".toList
  | NData => "NDATA".toList
  | NCmd => "NCMD".toList
  | DBirth => "DBIRTH".toList
  | DDeath => "DDEATH".toList
  | DData => "DDATA".toList
  | DCmd => "DCMD".toList
  | State => "STATE".toList

/-- `MessageType::is_node_message`. -/
def is_node_message : MessageType → Bool
  | NBirth | NDeath | NData | NCmd => true
  | _ => false

/-- `MessageType::is_device_message`. -/
def is_device_message : MessageType → Bool
  | DBirth | DDeath | DData | DCmd => true
  | _ => false

/-- `MessageType::is_birth`. -/
def is_birth : MessageType → Bool
  | NBirth | DBirth => true
  | _ => false

/-- `MessageType::is_death`. -/
def is_death : MessageType → Bool
  | NDeath | DDeath => true
  | _ => false

/-- `MessageType::is_data`. -/
def is_data : MessageType → Bool
  | NData | DData => true
  | _ => false

/-- `MessageType::is_command`. -/
def is_command : MessageType → Bool
  | NCmd | DCmd => true
  | _ => false

/-- `FromStr for MessageType`: token to message type, `InvalidTopic` on any
other token. -/
def fromStr (s : Str) : Except Error MessageType :=
  if s = "NBIRTH".toList then .ok NBirth
  else if s = "NDEATH".toList then .ok NDeath
  else if s = "NDATA".toList then .ok NData
  else if s = "NCMD".toList then .ok NCmd
  else if s = "DBIRTH".toList then .ok DBirth
  else if s = "DDEATH".toList then .ok DDeath
  else if s = "DDATA".toList then .ok DData
  else if s = "DCMD".toList then .ok DCmd
  else if s = "STATE".toList then .ok State
  else .error (.InvalidTopic ("unknown message type: ".toList ++ s))

end MessageType

/-- A parsed Sparkplug topic (src/topic.rs `ParsedTopic`). -/
inductive ParsedTopic
  | Sparkplug (message_type : MessageType) (group_id : Str) (edge_node_id : Str)
      (device_id : Option Str)
  | State (host_id : Str)
  deriving DecidableEq, Repr

namespace ParsedTopic

/-- Body of `ParsedTopic::parse` after the split on slashes: accept the STATE
shape at exactly 2 segments, otherwise require at least 4 segments, the
`spBv1.0` namespace token and a known message-type token, then validate the
presence of the 5th segment against the message type. -/
def parseParts (parts : List Str) : Except Error ParsedTopic :=
  if parts.length = 2 ∧ parts.getD 0 [] = "STATE".toList then
    .ok (.State (parts.getD 1 []))
  else if parts.length < 4 then
    .error (.InvalidTopic
      (("topic must have at least 4 parts, got " ++ Nat.repr parts.length).toList))
  else if parts.getD 0 [] ≠ "spBv1.0".toList then
    .error (.InvalidTopic
      ("topic must start with 'spBv1.0', got '".toList ++ parts.getD 0 [] ++ "'".toList))
  else
    match MessageType.fromStr (parts.getD 2 []) with
    | .error e => .error e
    | .ok message_type =>
      if message_type.is_device_message ∧ parts.get? 4 = none then
        .error (.InvalidTopic (message_type.as_str ++ " messages require a device_id".toList))
      else if message_type.is_node_message ∧ parts.get? 4 ≠ none then
        .error (.InvalidTopic
          (message_type.as_str ++ " messages should not have a device_id".toList))
      else
        .ok (.Sparkplug message_type (parts.getD 1 []) (parts.getD 3 []) (parts.get? 4))

/-- `ParsedTopic::parse` (src/topic.rs lines 149-200). -/
def parse (topic : Str) : Except Error ParsedTopic :=
  parseParts (splitChar '/' topic)

/-- `ParsedTopic::to_topic_string` (src/topic.rs lines 243-270). -/
def to_topic_string : ParsedTopic → Str
  | .Sparkplug message_type group_id edge_node_id (some device_id) =>
      "spBv1.0/".toList ++ group_id ++ "/".toList ++ message_type.as_str ++
        "/".toList ++ edge_node_id ++ "/".toList ++ device_id
  | .Sparkplug message_type group_id edge_node_id none =>
      "spBv1.0/".toList ++ group_id ++ "/".toList ++ message_type.as_str ++
        "/".toList ++ edge_node_id
  | .State host_id => "STATE/".toList ++ host_id

end ParsedTopic

/-- Sparkplug data types (src/types.rs `DataType`). -/
inductive DataType
  | Unknown
  | Int8
  | Int16
  | Int32
  | Int64
  | UInt8
  | UInt16
  | UInt32
  | UInt64
  | Float
  | Double
  | Boolean
  | StringT
  | DateTime
  | Text
  deriving DecidableEq, Repr

/-- Metric value union (src/types.rs `MetricValue`). Signed widths carry `Int`,
unsigned widths carry `Nat`; the two float variants carry the raw IEEE-754 bit
pattern, which none of the embedded operations interpret. -/
inductive MetricValue
  | Int8 (v : Int)
  | Int16 (v : Int)
  | Int32 (v : Int)
  | Int64 (v : Int)
  | UInt8 (v : Nat)
  | UInt16 (v : Nat)
  | UInt32 (v : Nat)
  | UInt64 (v : Nat)
  | Float (bits : Nat)
  | Double (bits : Nat)
  | Boolean (v : Bool)
  | StringV (v : Str)
  | Null
  deriving DecidableEq, Repr

/-- Metric information (src/types.rs `Metric`). -/
structure Metric where
  name : Option Str
  «alias» : Option Nat
  timestamp : Option Nat
  datatype : DataType
  value : MetricValue
  deriving DecidableEq, Repr

/-- A parsed payload envelope (src/payload.rs `Payload`), as the accessors
expose it: optional timestamp, optional seq, optional uuid and an ordered
metric list. -/
structure Payload where
  timestamp : Option Nat
  seq : Option Nat
  uuid : Option Str
  metrics : List Metric
  deriving DecidableEq, Repr

namespace Payload

/-- `Payload::metric_count`. -/
def metric_count (p : Payload) : Nat := p.metrics.length

/-- `Payload::metric_at` (src/payload.rs lines 447-459): bounds check against
`metric_count` first, then the per-index lookup, which for an in-bounds index
yields the metric (the second `InvalidMetricIndex` return mirrors the
lookup-failure branch). -/
def metric_at (p : Payload) (index : Nat) : Except Error Metric :=
  let count := p.metric_count
  if index ≥ count then
    .error (.InvalidMetricIndex index count)
  else
    match p.metrics.get? index with
    | none => .error (.InvalidMetricIndex index count)
    | some m => .ok m

end Payload

/-- Node liveness states (examples/torture_test_subscriber.rs
`NodeSleepState`). -/
inductive NodeSleepState
  | Unknown
  | Awake
  | Sleeping
  | WakePending
  deriving DecidableEq, Repr

/-- Per-node tracker entry (examples/torture_test_subscriber.rs `NodeStats`).
Counters are `Int` (Rust `i64`/`i32` that only ever increment from 0 here);
instants are modelled as whole seconds since an arbitrary origin. -/
structure NodeStats where
  birth_count : Int
  death_count : Int
  data_count : Int
  current_bd_seq : Nat
  last_seq : Nat
  state : NodeSleepState
  last_death_time : Option Nat
  last_wake_attempt : Option Nat
  wake_attempt_count : Nat
  deriving DecidableEq, Repr

namespace NodeStats

/-- `NodeStats::new`. -/
def new : NodeStats where
  birth_count := 0
  death_count := 0
  data_count := 0
  current_bd_seq := 0
  last_seq := 0
  state := .Unknown
  last_death_time := none
  last_wake_attempt := none
  wake_attempt_count := 0

/-- `NodeStats::online`. -/
def online (s : NodeStats) : Bool := s.state = .Awake

/-- `NodeStats::sleeping`. -/
def sleeping (s : NodeStats) : Bool := s.state = .Sleeping

/-- `NodeStats::wake_pending`. -/
def wake_pending (s : NodeStats) : Bool := s.state = .WakePending

end NodeStats

/-- Reinterpretation of an `i64` value as `u64` (`seq as u64`). -/
def toU64 (v : Int) : Nat := (v.emod (2 ^ 64)).toNat

/-- The bdSeq extraction loop of the NBIRTH arm: first metric named `bdSeq` or
`Node Control/bdSeq` whose value is a UInt64 or Int64 wins; a matching name
with any other value variant is skipped and the scan continues. Defaults
to 0. -/
def extractBdSeq : List Metric → Nat
  | [] => 0
  | m :: ms =>
    if m.name = some "bdSeq".toList ∨ m.name = some "Node Control/bdSeq".toList then
      match m.value with
      | .UInt64 v => v
      | .Int64 v => toU64 v
      | _ => extractBdSeq ms
    else
      extractBdSeq ms

/-- NBIRTH arm of `handle_message_static` (lines 351-397): the birth counter
increments unconditionally; everything else happens only when the payload
parses. -/
def handleNBirth (payload : Option Payload) (s : NodeStats) : NodeStats :=
  let s := { s with birth_count := s.birth_count + 1 }
  match payload with
  | none => s
  | some p =>
    let s :=
      match p.seq with
      | some seq => { s with last_seq := seq % 256 }
      | none => s
    { s with
      current_bd_seq := extractBdSeq p.metrics
      state := .Awake
      wake_attempt_count := 0 }

/-- NDEATH arm of `handle_message_static` (lines 399-417): the transition to
`Sleeping` happens whether or not the payload parses; the payload is only
read for the logged bdSeq. -/
def handleNDeath (s : NodeStats) (now : Nat) : NodeStats :=
  { s with
    death_count := s.death_count + 1
    state := .Sleeping
    last_death_time := some now
    wake_attempt_count := 0 }

/-- NDATA arm of `handle_message_static` (lines 419-484). Returns the updated
entry and whether a sequence error was recorded. A payload that fails to
parse leaves the entry untouched. -/
def handleNData (payload : Option Payload) (now : Nat) (s : NodeStats) :
    NodeStats × Bool :=
  match payload with
  | none => (s, false)
  | some p =>
    let seq := p.seq.getD 0
    let seq_u8 := seq % 256
    if s.sleeping || s.state = .Unknown then
      ({ s with
          state := .WakePending
          last_wake_attempt := some now
          wake_attempt_count := s.wake_attempt_count + 1 }, false)
    else if s.wake_pending then
      (s, false)
    else if !s.online then
      ({ s with
          state := .WakePending
          last_wake_attempt := some now
          wake_attempt_count := s.wake_attempt_count + 1 }, false)
    else
      let s := { s with data_count := s.data_count + 1 }
      let expected_seq := (s.last_seq + 1) % 256
      let seqError := seq_u8 ≠ expected_seq && s.last_seq ≠ 255
      ({ s with last_seq := seq_u8 }, seqError)

/-- `handle_message_static` restricted to one tracker entry: dispatch on the
topic's message type. DBIRTH/DDATA/DDEATH and the `_` arm only log. The
returned flag records whether a sequence error was counted. -/
def handleMessage (mt : MessageType) (payload : Option Payload) (now : Nat)
    (s : NodeStats) : NodeStats × Bool :=
  match mt with
  | .NBirth => (handleNBirth payload s, false)
  | .NDeath => (handleNDeath s now, false)
  | .NData => handleNData payload now s
  | _ => (s, false)

/-- Rust release-mode `i32` two's-complement wraparound. -/
def wrap32 (x : Int) : Int := (x + 2 ^ 31).emod (2 ^ 32) - 2 ^ 31

/-- Reinterpretation of an `i32` value as `u64` (`backoff_seconds as u64`). -/
def i32AsU64 (x : Int) : Nat := (x.emod (2 ^ 64)).toNat

/-- The wake-backoff computation of `check_sleeping_nodes` (line 574):
`std::cmp::min(60, 5 * (1 << wake_attempt_count))` in `i32` arithmetic, with
the shift amount masked to 0-31 and the product wrapping as in release
builds (debug builds panic on the overflow instead). -/
def backoffSeconds (wake_attempt_count : Nat) : Int :=
  min 60 (wrap32 (5 * wrap32 (2 ^ (wake_attempt_count % 32))))

/-- One pass of `check_sleeping_nodes` (lines 563-620) over a single entry:
phase one demotes a timed-out `WakePending` entry to `Sleeping` and collects
it; phase two sends the rebirth command and promotes the collected entry to
`WakePending`. Returns the updated entry and whether a rebirth command was
sent for it. Entries whose `last_wake_attempt` was never set are skipped. -/
def sweepEntry (now : Nat) (s : NodeStats) : NodeStats × Bool :=
  if !(s.sleeping || s.wake_pending) then
    (s, false)
  else
    let backoff := backoffSeconds s.wake_attempt_count
    match s.last_wake_attempt with
    | none => (s, false)
    | some last_attempt =>
      let time_since_last := now - last_attempt
      if time_since_last ≥ i32AsU64 backoff then
        let s1 := if s.wake_pending then { s with state := .Sleeping } else s
        if s1.sleeping then
          ({ s1 with
              state := .WakePending
              last_wake_attempt := some now
              wake_attempt_count := s1.wake_attempt_count + 1 }, true)
        else
          (s1, false)
      else
        (s, false)

/-- One observable step of the tracker for a single node: an inbound message
(with its parsed payload, or `none` when payload parsing failed) or a pass of
the periodic sweep. -/
inductive TrackerStep
  | msg (mt : MessageType) (payload : Option Payload) (now : Nat)
  | sweep (now : Nat)

/-- Runs tracker steps over one entry, counting the rebirth commands the
sweep sends for it. -/
def runSteps : List TrackerStep → NodeStats → NodeStats × Nat
  | [], s => (s, 0)
  | .msg mt payload now :: steps, s =>
    let r := handleMessage mt payload now s
    runSteps steps r.1
  | .sweep now :: steps, s =>
    let r := sweepEntry now s
    let rest := runSteps steps r.1
    (rest.1, (if r.2 then 1 else 0) + rest.2)

/-- Modelled from the spec: the publisher's seq/bdSeq counter logic
(`Publisher::publish_data`, `Publisher::rebirth`, src/publisher.rs) lives in
the external sparkplug_cpp library behind the `sys` FFI, so it is modelled
from spec sections 3 (PublisherState) and 4.4: bdSeq is a 64-bit counter
incremented by one on every rebirth, seq is an 8-bit wrapping counter that
resets to 0 on every birth and advances by 1 mod 256 with each successful
data publish. -/
structure PublisherState where
  bdSeq : Nat
  seq : Nat
  lastBirthSent : Bool
  deriving DecidableEq, Repr

namespace PublisherState

/-- Modelled from the spec: `birth()` stamps the NBIRTH with seq 0 and resets
the seq counter; the emitted seq value is returned alongside the new state. -/
def birth (s : PublisherState) : PublisherState × Nat :=
  ({ s with seq := 0, lastBirthSent := true }, 0)

/-- Modelled from the spec: a successful `data()` advances seq by 1 mod 256
and stamps the NDATA with the advanced value; the counter is only mutated on
success. -/
def data (s : PublisherState) : PublisherState × Nat :=
  let n := (s.seq + 1) % 256
  ({ s with seq := n }, n)

/-- Modelled from the spec: `rebirth()` increments bdSeq by one and then
behaves exactly as `birth()`. -/
def rebirth (s : PublisherState) : PublisherState × Nat :=
  birth { s with bdSeq := s.bdSeq + 1 }

/-- The seq values stamped by `n` consecutive successful data publishes. -/
def runData : Nat → PublisherState → PublisherState × List Nat
  | 0, s => (s, [])
  | n + 1, s =>
    let r := s.data
    let rest := runData n r.1
    (rest.1, r.2 :: rest.2)

end PublisherState

theorem splitChar_ne_nil (sep : Char) (s : List Char) : splitChar sep s ≠ [] := by
  cases s with
  | nil => simp [splitChar]
  | cons c rest =>
    simp only [splitChar]
    cases h : splitChar sep rest with
    | nil => simp
    | cons p ps =>
      by_cases hc : c = sep <;> simp [hc]

theorem joinChar_cons_cons (sep : Char) (c : Char) (p : List Char)
    (ps : List (List Char)) :
    joinChar sep ((c :: p) :: ps) = c :: joinChar sep (p :: ps) := by
  cases ps with
  | nil => rfl
  | cons q qs => rfl

theorem joinChar_splitChar (sep : Char) (s : List Char) :
    joinChar sep (splitChar sep s) = s := by
  induction s with
  | nil => rfl
  | cons c rest ih =>
    simp only [splitChar]
    cases h : splitChar sep rest with
    | nil => exact absurd h (splitChar_ne_nil sep rest)
    | cons p ps =>
      rw [h] at ih
      by_cases hc : c = sep
      · subst hc
        simp only [if_pos rfl, joinChar]
        cases ps <;> simp_all [joinChar]
      · simp only [if_neg hc, joinChar_cons_cons]
        rw [ih]

theorem MessageType.as_str_fromStr {s : Str} {m : MessageType}
    (h : MessageType.fromStr s = .ok m) : m.as_str = s := by
  unfold MessageType.fromStr at h
  split_ifs at h <;> cases h <;> subst_vars <;> rfl

theorem exists_four_cons {α : Type} (l : List α) (h : 4 ≤ l.length) :
    ∃ a b c d rest, l = a :: b :: c :: d :: rest := by
  rcases l with _ | ⟨a, _ | ⟨b, _ | ⟨c, _ | ⟨d, rest⟩⟩⟩⟩ <;> simp at h
  exact ⟨a, b, c, d, rest, rfl⟩

theorem fromStr_error_invalidTopic {s : Str} {e : Error}
    (h : MessageType.fromStr s = .error e) : ∃ r, e = .InvalidTopic r := by
  unfold MessageType.fromStr at h
  split_ifs at h <;> cases h <;> exact ⟨_, rfl⟩

theorem parseParts_state {parts : List Str}
    (h1 : parts.length = 2 ∧ parts.getD 0 [] = "STATE".toList) :
    ParsedTopic.parseParts parts = .ok (.State (parts.getD 1 [])) := by
  unfold ParsedTopic.parseParts
  rw [if_pos h1]

theorem parseParts_short {parts : List Str}
    (h1 : ¬(parts.length = 2 ∧ parts.getD 0 [] = "STATE".toList))
    (h2 : parts.length < 4) :
    ParsedTopic.parseParts parts = .error (.InvalidTopic
      (("topic must have at least 4 parts, got " ++ Nat.repr parts.length).toList)) := by
  unfold ParsedTopic.parseParts
  rw [if_neg h1, if_pos h2]

theorem parseParts_badns {parts : List Str}
    (h1 : ¬(parts.length = 2 ∧ parts.getD 0 [] = "STATE".toList))
    (h2 : ¬(parts.length < 4))
    (h3 : parts.getD 0 [] ≠ "spBv1.0".toList) :
    ParsedTopic.parseParts parts = .error (.InvalidTopic
      ("topic must start with 'spBv1.0', got '".toList ++ parts.getD 0 [] ++ "'".toList)) := by
  unfold ParsedTopic.parseParts
  rw [if_neg h1, if_neg h2, if_pos h3]

theorem parseParts_tail_err {parts : List Str} {e : Error}
    (h1 : ¬(parts.length = 2 ∧ parts.getD 0 [] = "STATE".toList))
    (h2 : ¬(parts.length < 4))
    (h3 : parts.getD 0 [] = "spBv1.0".toList)
    (hfs : MessageType.fromStr (parts.getD 2 []) = .error e) :
    ParsedTopic.parseParts parts = .error e := by
  unfold ParsedTopic.parseParts
  rw [if_neg h1, if_neg h2, if_neg (fun hne => hne h3), hfs]

theorem parseParts_tail_eq {parts : List Str} {mt : MessageType}
    (h1 : ¬(parts.length = 2 ∧ parts.getD 0 [] = "STATE".toList))
    (h2 : ¬(parts.length < 4))
    (h3 : parts.getD 0 [] = "spBv1.0".toList)
    (hfs : MessageType.fromStr (parts.getD 2 []) = .ok mt) :
    ParsedTopic.parseParts parts =
      (if mt.is_device_message = true ∧ parts.get? 4 = none then
        .error (.InvalidTopic (mt.as_str ++ " messages require a device_id".toList))
      else if mt.is_node_message = true ∧ parts.get? 4 ≠ none then
        .error (.InvalidTopic (mt.as_str ++ " messages should not have a device_id".toList))
      else
        .ok (.Sparkplug mt (parts.getD 1 []) (parts.getD 3 []) (parts.get? 4))) := by
  unfold ParsedTopic.parseParts
  rw [if_neg h1, if_neg h2, if_neg (fun hne => hne h3), hfs]

theorem parseParts_roundtrip (parts : List Str) (p : ParsedTopic)
    (hok : ParsedTopic.parseParts parts = .ok p) (hlen : parts.length ≤ 5) :
    p.to_topic_string = joinChar '/' parts := by
  by_cases h1 : parts.length = 2 ∧ parts.getD 0 [] = "STATE".toList
  · rw [parseParts_state h1] at hok
    cases hok
    obtain ⟨a, b, rfl⟩ := List.length_eq_two.mp h1.1
    have ha : a = "STATE".toList := by simpa using h1.2
    subst ha
    rfl
  · by_cases h2 : parts.length < 4
    · rw [parseParts_short h1 h2] at hok
      exact Except.noConfusion hok
    · by_cases h3 : parts.getD 0 [] = "spBv1.0".toList
      · cases hfs : MessageType.fromStr (parts.getD 2 []) with
        | error e =>
          rw [parseParts_tail_err h1 h2 h3 hfs] at hok
          exact Except.noConfusion hok
        | ok mt =>
          rw [parseParts_tail_eq h1 h2 h3 hfs] at hok
          by_cases h4 : mt.is_device_message = true ∧ parts.get? 4 = none
          · rw [if_pos h4] at hok
            exact Except.noConfusion hok
          · rw [if_neg h4] at hok
            by_cases h5 : mt.is_node_message = true ∧ parts.get? 4 ≠ none
            · rw [if_pos h5] at hok
              exact Except.noConfusion hok
            · rw [if_neg h5] at hok
              cases hok
              have hlen4 : 4 ≤ parts.length := by omega
              obtain ⟨a, b, c, d, rest, rfl⟩ := exists_four_cons parts hlen4
              have hmt : mt.as_str = c := by
                simpa using MessageType.as_str_fromStr hfs
              have ha : a = "spBv1.0".toList := by simpa using h3
              subst ha
              rcases rest with _ | ⟨e5, _ | ⟨x, xs⟩⟩
              · rw [← hmt]
                show "spBv1.0/".toList ++ b ++ "/".toList ++ mt.as_str ++ "/".toList ++ d =
                  "spBv1.0".toList ++ '/' :: (b ++ '/' :: (mt.as_str ++ '/' :: d))
                have hns : ("spBv1.0/".toList : List Char) = "spBv1.0".toList ++ ['/'] := rfl
                have hsl : ("/".toList : List Char) = ['/'] := rfl
                rw [hns, hsl]
                simp [List.append_assoc]
              · rw [← hmt]
                show "spBv1.0/".toList ++ b ++ "/".toList ++ mt.as_str ++ "/".toList ++ d ++
                    "/".toList ++ e5 =
                  "spBv1.0".toList ++ '/' ::
                    (b ++ '/' :: (mt.as_str ++ '/' :: (d ++ '/' :: e5)))
                have hns : ("spBv1.0/".toList : List Char) = "spBv1.0".toList ++ ['/'] := rfl
                have hsl : ("/".toList : List Char) = ['/'] := rfl
                rw [hns, hsl]
                simp [List.append_assoc]
              · simp at hlen
      · rw [parseParts_badns h1 h2 h3] at hok
        exact Except.noConfusion hok

theorem parseParts_ok_characterization (parts : List Str) :
    ((∃ p, ParsedTopic.parseParts parts = .ok p) ↔
      ((parts.length = 2 ∧ parts.getD 0 [] = "STATE".toList) ∨
       (4 ≤ parts.length ∧ parts.getD 0 [] = "spBv1.0".toList ∧
        ∃ mt : MessageType, MessageType.fromStr (parts.getD 2 []) = .ok mt ∧
          (mt.is_device_message = true → 5 ≤ parts.length) ∧
          (mt.is_node_message = true → parts.length = 4)))) ∧
    ((∃ p, ParsedTopic.parseParts parts = .ok p) ∨
      ∃ r, ParsedTopic.parseParts parts = .error (.InvalidTopic r)) := by
  by_cases h1 : parts.length = 2 ∧ parts.getD 0 [] = "STATE".toList
  · have hok := parseParts_state h1
    exact ⟨iff_of_true ⟨_, hok⟩ (Or.inl h1), Or.inl ⟨_, hok⟩⟩
  · by_cases h2 : parts.length < 4
    · have herr := parseParts_short h1 h2
      refine ⟨iff_of_false ?_ ?_, Or.inr ⟨_, herr⟩⟩
      · rintro ⟨p, hp⟩
        rw [herr] at hp
        exact Except.noConfusion hp
      · rintro (hc | hc)
        · exact h1 hc
        · exact absurd hc.1 (by omega)
    · by_cases h3 : parts.getD 0 [] = "spBv1.0".toList
      · cases hfs : MessageType.fromStr (parts.getD 2 []) with
        | error e =>
          obtain ⟨r, rfl⟩ := fromStr_error_invalidTopic hfs
          have herr : ParsedTopic.parseParts parts = .error (.InvalidTopic r) :=
            parseParts_tail_err h1 h2 h3 hfs
          refine ⟨iff_of_false ?_ ?_, Or.inr ⟨_, herr⟩⟩
          · rintro ⟨p, hp⟩
            rw [herr] at hp
            exact Except.noConfusion hp
          · rintro (hc | ⟨_, _, mt, hmt, _⟩)
            · exact h1 hc
            · exact Except.noConfusion hmt
        | ok mt =>
          by_cases h4 : mt.is_device_message = true ∧ parts.get? 4 = none
          · have herr : ParsedTopic.parseParts parts = .error
                (.InvalidTopic (mt.as_str ++ " messages require a device_id".toList)) := by
              rw [parseParts_tail_eq h1 h2 h3 hfs, if_pos h4]
            refine ⟨iff_of_false ?_ ?_, Or.inr ⟨_, herr⟩⟩
            · rintro ⟨p, hp⟩
              rw [herr] at hp
              exact Except.noConfusion hp
            · rintro (hc | ⟨hlen4, hns, mt2, hmt2, hdev, hnode⟩)
              · exact h1 hc
              · cases hmt2
                have h5l := hdev h4.1
                have hnone := h4.2
                rw [List.get?_eq_none] at hnone
                omega
          · by_cases h5 : mt.is_node_message = true ∧ parts.get? 4 ≠ none
            · have herr : ParsedTopic.parseParts parts = .error
                  (.InvalidTopic (mt.as_str ++ " messages should not have a device_id".toList)) := by
                rw [parseParts_tail_eq h1 h2 h3 hfs, if_neg h4, if_pos h5]
              refine ⟨iff_of_false ?_ ?_, Or.inr ⟨_, herr⟩⟩
              · rintro ⟨p, hp⟩
                rw [herr] at hp
                exact Except.noConfusion hp
              · rintro (hc | ⟨hlen4, hns, mt2, hmt2, hdev, hnode⟩)
                · exact h1 hc
                · cases hmt2
                  have hne := h5.2
                  have hlt : 4 < parts.length := by
                    by_contra hle
                    exact hne (List.get?_eq_none.mpr (by omega))
                  have h4eq := hnode h5.1
                  omega
            · have hok : ParsedTopic.parseParts parts = .ok
                  (.Sparkplug mt (parts.getD 1 []) (parts.getD 3 []) (parts.get? 4)) := by
                rw [parseParts_tail_eq h1 h2 h3 hfs, if_neg h4, if_neg h5]
              refine ⟨iff_of_true ⟨_, hok⟩ ?_, Or.inl ⟨_, hok⟩⟩
              right
              refine ⟨by omega, h3, mt, rfl, ?_, ?_⟩
              · intro hdev
                by_contra hlt
                push_neg at hlt
                exact h4 ⟨hdev, List.get?_eq_none.mpr (by omega)⟩
              · intro hnode
                by_cases hn : parts.get? 4 = none
                · rw [List.get?_eq_none] at hn
                  omega
                · exact absurd ⟨hnode, hn⟩ h5
      · have herr := parseParts_badns h1 h2 h3
        refine ⟨iff_of_false ?_ ?_, Or.inr ⟨_, herr⟩⟩
        · rintro ⟨p, hp⟩
          rw [herr] at hp
          exact Except.noConfusion hp
        · rintro (hc | hc)
          · exact h1 hc
          · exact h3 hc.2.1

theorem runData_seq (N : Nat) (s : PublisherState) :
    (PublisherState.runData N s).2 =
      (List.range N).map (fun i => (s.seq + i + 1) % 256) := by
  induction N generalizing s with
  | zero => rfl
  | succ n ih =>
    have step : (PublisherState.runData (n + 1) s).2 =
        ((s.seq + 1) % 256) ::
          (PublisherState.runData n { s with seq := (s.seq + 1) % 256 }).2 := rfl
    rw [step, ih]
    show ((s.seq + 1) % 256) ::
        List.map (fun i => ((s.seq + 1) % 256 + i + 1) % 256) (List.range n) =
      List.map (fun i => (s.seq + i + 1) % 256) (List.range (n + 1))
    rw [List.range_succ_eq_map, List.map_cons, List.map_map]
    refine congrArg₂ List.cons (by omega) ?_
    apply List.map_congr_left
    intro a _
    simp only [Function.comp_apply]
    omega

theorem sweepEntry_no_attempt (now : Nat) (s : NodeStats)
    (h : s.last_wake_attempt = none) : sweepEntry now s = (s, false) := by
  simp [sweepEntry, h]

theorem handleMessage_wake_attempt_eq (mt : MessageType) (p : Option Payload)
    (now : Nat) (s : NodeStats)
    (h : ¬(mt = .NData ∧ p.isSome = true)) :
    (handleMessage mt p now s).1.last_wake_attempt = s.last_wake_attempt := by
  rcases p with _ | pl
  · cases mt <;> rfl
  · cases mt
    · cases hps : pl.seq <;> simp [handleMessage, handleNBirth, hps]
    · rfl
    · exact absurd ⟨rfl, rfl⟩ h
    · rfl
    · rfl
    · rfl
    · rfl
    · rfl
    · rfl

theorem runSteps_no_ndata : ∀ (steps : List TrackerStep) (s : NodeStats),
    s.last_wake_attempt = none →
    (∀ p now, TrackerStep.msg .NData (some p) now ∉ steps) →
    (runSteps steps s).1.last_wake_attempt = none ∧ (runSteps steps s).2 = 0 := by
  intro steps
  induction steps with
  | nil => exact fun s hs _ => ⟨hs, rfl⟩
  | cons st rest ih =>
    intro s hs h
    have hrest : ∀ p now, TrackerStep.msg .NData (some p) now ∉ rest := by
      intro p now hm
      exact h p now (List.mem_cons_of_mem _ hm)
    cases st with
    | msg mt p now =>
      have hnot : ¬(mt = .NData ∧ p.isSome = true) := by
        rintro ⟨rfl, hp⟩
        rcases p with _ | pl
        · simp at hp
        · exact h pl now (List.mem_cons_self _ _)
      have hpres := handleMessage_wake_attempt_eq mt p now s hnot
      simp only [runSteps]
      exact ih (handleMessage mt p now s).1 (hpres.trans hs) hrest
    | sweep now =>
      have hsw := sweepEntry_no_attempt now s hs
      obtain ⟨ih1, ih2⟩ := ih s hs hrest
      simp [runSteps, hsw, ih1, ih2]

/-- C10: for every MessageType value, parsing its topic token back yields the
same value, and distinct values have distinct tokens, so as_str/from_str is a
bijection between the 9 variants and their 9 tokens. -/
theorem messageType_token_bijection :
    (∀ m : MessageType, MessageType.fromStr m.as_str = .ok m) ∧
    (∀ m m' : MessageType, m.as_str = m'.as_str → m = m') := by
  constructor
  · intro m
    cases m <;> rfl
  · intro m m' h
    cases m <;> cases m' <;> first | rfl | exact absurd h (by decide)

/-- Witness for C10 at a concrete pair of message types. -/
theorem messageType_token_bijection_witness :
    MessageType.fromStr (MessageType.as_str .NBirth) = .ok .NBirth ∧
    MessageType.NBirth = .NBirth :=
  ⟨messageType_token_bijection.1 .NBirth,
   messageType_token_bijection.2 .NBirth .NBirth rfl⟩

/-- C8: metric_at returns InvalidMetricIndex with the requested index and the
actual count exactly when the index is out of bounds, returns a metric for
every in-bounds index, and on an empty payload at index 0 fails with
InvalidMetricIndex index 0 count 0. -/
theorem metric_at_bounds :
    (∀ (p : Payload) (i : Nat),
      (p.metric_at i = .error (.InvalidMetricIndex i p.metric_count) ↔
        p.metric_count ≤ i) ∧
      (p.metric_count ≤ i ∨ ∃ m, p.metric_at i = .ok m)) ∧
    Payload.metric_at { timestamp := none, seq := none, uuid := none, metrics := [] } 0 =
      .error (.InvalidMetricIndex 0 0) := by
  refine ⟨fun p i => ?_, rfl⟩
  by_cases h : p.metric_count ≤ i
  · refine ⟨iff_of_true ?_ h, Or.inl h⟩
    simp [Payload.metric_at, ge_iff_le, h]
  · push_neg at h
    have hg : p.metrics[i]? = some (p.metrics.get ⟨i, h⟩) := by
      rw [← List.get?_eq_getElem?]
      exact List.get?_eq_get h
    refine ⟨iff_of_false ?_ (by omega), Or.inr ⟨p.metrics.get ⟨i, h⟩, ?_⟩⟩
    · simp [Payload.metric_at, ge_iff_le, Nat.not_le.mpr h, hg]
    · simp [Payload.metric_at, ge_iff_le, Nat.not_le.mpr h, hg]

/-- C7: the wake-backoff computation is `min(60, 5 * (1 << n))` in `i32`; at
wakeAttemptCount 29 the multiplication overflows and (in release semantics)
wraps to a negative value instead of the capped 60 the spec prescribes, and a
sleeping entry with that attempt count is never woken again, because the
negative backoff reinterpreted as `u64` exceeds any elapsed time. Up to
attempt 28 the computation matches the spec formula. -/
theorem wake_backoff_overflow :
    backoffSeconds 29 = -1610612736 ∧
    (min 60 (5 * 2 ^ 29) : Int) = 60 ∧
    backoffSeconds 28 = 60 ∧
    sweepEntry 1000000000 { NodeStats.new with state := .Sleeping, last_wake_attempt := some 0, wake_attempt_count := 29 } =
      ({ NodeStats.new with state := .Sleeping, last_wake_attempt := some 0, wake_attempt_count := 29 }, false) := by
  refine ⟨by decide, by decide, by decide, ?_⟩
  decide

/-- Counterexample to C6: an NDEATH whose payload fails to parse still moves
the entry from Awake to Sleeping and bumps its death counter, so parse
failures do not leave the entry unchanged for every message type. -/
theorem parse_failure_counterexample :
    ({ NodeStats.new with state := .Awake } : NodeStats).state = .Awake ∧
    (handleMessage .NDeath none 0 { NodeStats.new with state := .Awake }).1.state =
      .Sleeping ∧
    (handleMessage .NDeath none 0 { NodeStats.new with state := .Awake }).1.death_count =
      1 := by
  decide

/-- C6 as amended: on a payload parse failure, NDATA and the device-level
messages leave the tracker entry unchanged, NBIRTH increments only the birth
counter, and NDEATH still applies its full death transition (it only reads
the payload for logging). -/
theorem parse_failure_effects_amended :
    ∀ (now : Nat) (s : NodeStats),
      handleMessage .NData none now s = (s, false) ∧
      handleMessage .DBirth none now s = (s, false) ∧
      handleMessage .DData none now s = (s, false) ∧
      handleMessage .DDeath none now s = (s, false) ∧
      handleMessage .NCmd none now s = (s, false) ∧
      handleMessage .DCmd none now s = (s, false) ∧
      handleMessage .State none now s = (s, false) ∧
      handleMessage .NBirth none now s =
        ({ s with birth_count := s.birth_count + 1 }, false) ∧
      handleMessage .NDeath none now s =
        ({ s with death_count := s.death_count + 1, state := .Sleeping, last_death_time := some now, wake_attempt_count := 0 }, false) :=
  fun _ _ => ⟨rfl, rfl, rfl, rfl, rfl, rfl, rfl, rfl, rfl⟩

/-- Counterexample to C3: in the Awake state an NDATA carrying the same seq
as lastSeq (a duplicate) still records a sequence error, so the claimed
duplicate-retransmit tolerance is absent at this call site. -/
theorem seq_gap_counterexample :
    (({ NodeStats.new with state := .Awake, last_seq := 10 } : NodeStats).last_seq = 10) ∧
    (handleMessage .NData
      (some { timestamp := none, seq := some 10, uuid := none, metrics := [] }) 0
      { NodeStats.new with state := .Awake, last_seq := 10 }).2 = true := by
  decide

/-- C3 as amended: while Awake, a sequence error is recorded iff the received
seq differs from (lastSeq + 1) mod 256 and lastSeq is not 255; there is no
received-equals-lastSeq tolerance; lastSeq always advances to the received
value and the state stays Awake. -/
theorem seq_gap_rule_amended :
    ∀ (p : Payload) (now : Nat) (s : NodeStats), s.state = .Awake →
      ((handleMessage .NData (some p) now s).2 = true ↔
        ((p.seq.getD 0) % 256 ≠ (s.last_seq + 1) % 256 ∧ s.last_seq ≠ 255)) ∧
      (handleMessage .NData (some p) now s).1.last_seq = (p.seq.getD 0) % 256 ∧
      (handleMessage .NData (some p) now s).1.state = .Awake := by
  intro p now s hs
  simp [handleMessage, handleNData, NodeStats.sleeping, NodeStats.wake_pending,
    NodeStats.online, hs]

/-- Witness for C3's amended rule: lastSeq 250 and incoming seq 252 records a
gap. -/
theorem seq_gap_rule_amended_witness :
    (({ NodeStats.new with state := .Awake, last_seq := 250 } : NodeStats).state =
      NodeSleepState.Awake) ∧
    ((handleMessage .NData
        (some { timestamp := none, seq := some 252, uuid := none, metrics := [] }) 0
        { NodeStats.new with state := .Awake, last_seq := 250 }).2 = true ↔
      ((252 : Nat) % 256 ≠ (250 + 1) % 256 ∧ (250 : Nat) ≠ 255)) :=
  ⟨rfl,
   (seq_gap_rule_amended
      { timestamp := none, seq := some 252, uuid := none, metrics := [] } 0
      { NodeStats.new with state := .Awake, last_seq := 250 } rfl).1⟩

/-- Counterexample to C4: an NBIRTH received while Sleeping moves the entry
straight to Awake, a transition absent from the claimed list. -/
theorem tracker_transition_counterexample :
    (({ NodeStats.new with state := .Sleeping } : NodeStats).state = .Sleeping) ∧
    (handleMessage .NBirth
      (some { timestamp := none, seq := none, uuid := none, metrics := [] }) 0
      { NodeStats.new with state := .Sleeping }).1.state = .Awake := by
  decide

/-- C4 as amended: the only state changes are NBIRTH with a parseable payload
moving any state to Awake (resetting wakeAttemptCount), NDEATH moving any
state to Sleeping regardless of payload parse, NDATA with a parseable payload
moving Sleeping or Unknown to WakePending, and the sweep moving a Sleeping or
WakePending entry whose backoff has elapsed (back) to WakePending. -/
theorem tracker_transitions_amended :
    (∀ (mt : MessageType) (p : Option Payload) (now : Nat) (s : NodeStats),
      (handleMessage mt p now s).1.state = s.state ∨
      (mt = .NBirth ∧ p.isSome = true ∧ (handleMessage mt p now s).1.state = .Awake ∧
        (handleMessage mt p now s).1.wake_attempt_count = 0) ∨
      (mt = .NDeath ∧ (handleMessage mt p now s).1.state = .Sleeping) ∨
      (mt = .NData ∧ p.isSome = true ∧ (s.state = .Sleeping ∨ s.state = .Unknown) ∧
        (handleMessage mt p now s).1.state = .WakePending)) ∧
    (∀ (now : Nat) (s : NodeStats),
      (sweepEntry now s).1.state = s.state ∨
      ((s.state = .Sleeping ∨ s.state = .WakePending) ∧
        s.last_wake_attempt.isSome = true ∧
        (sweepEntry now s).1.state = .WakePending)) := by
  constructor
  · intro mt p now s
    cases mt <;> cases p <;>
      simp [handleMessage, handleNBirth, handleNDeath, handleNData]
    all_goals
      rcases hst : s.state <;>
        simp [NodeStats.sleeping, NodeStats.wake_pending, NodeStats.online, hst]
  · intro now s
    rcases hla : s.last_wake_attempt with _ | la
    · left
      simp [sweepEntry, hla]
    · rcases hst : s.state <;>
        simp [sweepEntry, NodeStats.sleeping, NodeStats.wake_pending, hst, hla] <;>
        split_ifs <;> simp_all

/-- Counterexample to C1: the six-segment topic `spBv1.0/g/DDATA/e/d/x` is
accepted by parse, but converting the parsed value back drops the sixth
segment, so the round-trip law fails on an accepted input. -/
theorem parse_roundtrip_counterexample :
    ParsedTopic.parse "spBv1.0/g/DDATA/e/d/x".toList =
      .ok (.Sparkplug .DData "g".toList "e".toList (some "d".toList)) ∧
    (ParsedTopic.Sparkplug .DData "g".toList "e".toList
        (some "d".toList)).to_topic_string ≠ "spBv1.0/g/DDATA/e/d/x".toList := by
  decide

/-- Counterexample to C2: `STATE` is accepted as the message-type segment of a
Sparkplug-shape topic, although the claim requires every such input to be an
InvalidTopic error. -/
theorem parse_grammar_counterexample :
    ParsedTopic.parse "spBv1.0/Energy/STATE/Gateway01".toList =
      .ok (.Sparkplug .State "Energy".toList "Gateway01".toList none) := by
  decide

/-- C1 as amended: the round-trip law toString(parse(T)) = T holds for every
topic string T that parse accepts and that has at most five slash-delimited
segments, for both the Sparkplug shape and the STATE shape; accepted topics
with six or more segments (possible for device-level and STATE message
types) round-trip to their first five segments instead. -/
theorem parse_roundtrip_amended :
    ∀ (t : Str) (p : ParsedTopic), ParsedTopic.parse t = .ok p →
      (splitChar '/' t).length ≤ 5 → p.to_topic_string = t := by
  intro t p hok hlen
  have hjoin := parseParts_roundtrip (splitChar '/' t) p hok hlen
  rw [hjoin, joinChar_splitChar]

/-- Witness for C1's amended round-trip law at a concrete four-segment
topic. -/
theorem parse_roundtrip_amended_witness :
    ParsedTopic.parse "spBv1.0/Energy/NBIRTH/Gateway01".toList =
      .ok (.Sparkplug .NBirth "Energy".toList "Gateway01".toList none) ∧
    (splitChar '/' "spBv1.0/Energy/NBIRTH/Gateway01".toList).length ≤ 5 ∧
    (ParsedTopic.Sparkplug .NBirth "Energy".toList "Gateway01".toList
        none).to_topic_string = "spBv1.0/Energy/NBIRTH/Gateway01".toList :=
  ⟨by decide, by decide,
   parse_roundtrip_amended "spBv1.0/Energy/NBIRTH/Gateway01".toList
     (.Sparkplug .NBirth "Energy".toList "Gateway01".toList none)
     (by decide) (by decide)⟩

/-- C2 as amended: parse accepts exactly the STATE shape (2 segments, first
literally STATE) and Sparkplug shapes with at least 4 segments whose first
segment is spBv1.0 and whose third is one of the 9 message-type tokens
(STATE included), where a device-level type requires at least 5 segments, a
node-level type exactly 4, and a STATE message type either; segments beyond
the fifth are accepted and ignored. Every rejected input is an InvalidTopic
error. -/
theorem parse_grammar_amended :
    ∀ t : Str,
      ((∃ p, ParsedTopic.parse t = .ok p) ↔
        (((splitChar '/' t).length = 2 ∧
          (splitChar '/' t).getD 0 [] = "STATE".toList) ∨
         (4 ≤ (splitChar '/' t).length ∧
          (splitChar '/' t).getD 0 [] = "spBv1.0".toList ∧
          ∃ mt : MessageType,
            MessageType.fromStr ((splitChar '/' t).getD 2 []) = .ok mt ∧
            (mt.is_device_message = true → 5 ≤ (splitChar '/' t).length) ∧
            (mt.is_node_message = true → (splitChar '/' t).length = 4)))) ∧
      ((∃ p, ParsedTopic.parse t = .ok p) ∨
        ∃ r, ParsedTopic.parse t = .error (.InvalidTopic r)) :=
  fun t => parseParts_ok_characterization (splitChar '/' t)

/-- Witness for C2's amended grammar at the concrete topic STATE/Host1. -/
theorem parse_grammar_amended_witness :
    ∃ p, ParsedTopic.parse "STATE/Host1".toList = .ok p :=
  (parse_grammar_amended "STATE/Host1".toList).1.mpr (Or.inl (by decide))

/-- C5: after one birth (stamped seq 0), N successful data publishes carry
seq values 1..N mod 256, so the observed sequence over birth plus N datas is
0,1,...,N mod 256 wrapping at 256; rebirth resets seq to 0 and increments
bdSeq by one. Modelled from the spec (the counter logic lives in the
external C++ library). -/
theorem publisher_seq_lifecycle :
    (∀ (s0 : PublisherState) (N : Nat),
      (s0.birth).2 :: (PublisherState.runData N (s0.birth).1).2 =
        (List.range (N + 1)).map (fun i => i % 256)) ∧
    (∀ s : PublisherState,
      (s.rebirth).1.seq = 0 ∧ (s.rebirth).1.bdSeq = s.bdSeq + 1) := by
  constructor
  · intro s0 N
    rw [runData_seq, List.range_succ_eq_map]
    simp only [PublisherState.birth, List.map_cons, List.map_map]
    congr 1
    apply List.map_congr_left
    intro i _
    simp [Function.comp]
  · intro s
    exact ⟨rfl, rfl⟩

/-- C9: the sweep neither mutates nor wakes an entry whose lastWakeAttempt
was never set; the NDEATH handler records lastDeathTime but leaves
lastWakeAttempt untouched; consequently a fresh entry driven by any traffic
without a parseable NDATA (in particular one that entered Sleeping through
an observed NDEATH) is never sent a rebirth command by the sweep. -/
theorem sweep_requires_wake_attempt :
    (∀ (now : Nat) (s : NodeStats), s.last_wake_attempt = none →
      sweepEntry now s = (s, false)) ∧
    (∀ (p : Option Payload) (now : Nat) (s : NodeStats),
      (handleMessage .NDeath p now s).1.last_wake_attempt = s.last_wake_attempt ∧
      (handleMessage .NDeath p now s).1.last_death_time = some now) ∧
    (∀ steps : List TrackerStep,
      (∀ p now, TrackerStep.msg .NData (some p) now ∉ steps) →
      (runSteps steps NodeStats.new).2 = 0) :=
  ⟨sweepEntry_no_attempt,
   fun _ _ _ => ⟨rfl, rfl⟩,
   fun steps h => (runSteps_no_ndata steps NodeStats.new rfl h).2⟩

/-- Witness for C9 on a fresh entry that observes an NDEATH and then a
sweep. -/
theorem sweep_requires_wake_attempt_witness :
    sweepEntry 100 NodeStats.new = (NodeStats.new, false) ∧
    (runSteps [TrackerStep.msg .NDeath none 5, TrackerStep.sweep 100]
        NodeStats.new).2 = 0 :=
  ⟨sweep_requires_wake_attempt.1 100 NodeStats.new rfl,
   sweep_requires_wake_attempt.2.2
     [TrackerStep.msg .NDeath none 5, TrackerStep.sweep 100]
     (by intro p now; simp)⟩

end SparkplugRs
